import Mathlib

/-!
Shallow embedding of the tree-inference engine of a tab-management
browser extension, covering two source files:

* `webextensions/common/bookmark.js` — the bookmark-batch grouper
  (`onBookmarksCreated`, `reserveToGroupCreatedBookmarks`,
  `tryGroupCreatedBookmarks`, `getTitlesWithTreeStructure`) and the
  bulk-create suppression counter `mCreatingCount`.
* `webextensions/background/handle-new-tabs.js` — the attachment
  decision listeners (`Tabs.onCreating`, `Tabs.onUpdated`,
  `Tabs.onAttached`).

Asynchronous host calls (bookmark store, tab registry, digest utility)
are modelled as an explicit environment; mutations issued to the host
are collected as explicit operation lists so that theorems can talk
about exactly which create/move/update/remove requests a code path
issues.
-/

namespace TST

/-- A bookmark record as delivered by `browser.bookmarks.onCreated`
and consumed by `tryGroupCreatedBookmarks`: `id`, `parentId`, `title`,
`url`, `index`. -/
structure Bookmark where
  id       : Nat
  parentId : Nat
  title    : String
  url      : String
  index    : Nat
deriving DecidableEq, Repr

/-- The external `configs.lastDraggedTabs` record written by a
collaborator when tabs are dragged toward the bookmarks UI:
`{ tabIds, urlsDigest }`. -/
structure LastDraggedTabs where
  tabIds     : List Nat
  urlsDigest : String
deriving DecidableEq, Repr

/-- The attributes of a tracked tab that `getTitlesWithTreeStructure`
and the grouper read: its title, its tree level
(`tab.$TST.getAttribute(Constants.kLEVEL)`, already parsed, defaulting
to 0), and whether it is a synthetic group tab
(`tab.$TST.isGroupTab`). -/
structure TabInfo where
  title      : String
  level      : Nat
  isGroupTab : Bool
deriving DecidableEq, Repr

/-- A bookmark-store mutation issued by the grouper: the explicit
image of the `browser.bookmarks.create/move/update/remove` calls in
`tryGroupCreatedBookmarks`. -/
inductive BookmarkOp where
  | createFolder (title : String) (index : Nat) (parentId : Nat)
  | move (id : Nat) (newParentId : Nat) (index : Nat)
  | remove (id : Nat)
  | update (id : Nat) (title : String)
deriving DecidableEq, Repr

/-- Strips a marker-like prefix from a character list, the image of
`title.replace(/^>+ /, '')` in `getTitlesWithTreeStructure`: the
maximal leading run of marker characters followed by a single space is
removed when present (the regexp cannot match any shorter run, since a
marker character is not a space). -/
def stripMarkerChars (cs : List Char) : List Char :=
  let run := cs.takeWhile (fun c => c == '>')
  let rest := cs.dropWhile (fun c => c == '>')
  if run.isEmpty then cs
  else
    match rest with
    | ' ' :: rest2 => rest2
    | _ => cs

/-- The marker-stripping replacement on strings. -/
def stripMarker (s : String) : String :=
  String.mk (stripMarkerChars s.toList)

/-- Minimum (`Math.min`) over the levels of a tab list (`minLevel` in
`getTitlesWithTreeStructure`); on the empty list the value is never
used by the loop, so 0 stands in for JavaScript's `Infinity`. -/
def minLevel (tabs : List TabInfo) : Nat :=
  match tabs.map TabInfo.level with
  | [] => 0
  | l :: ls => ls.foldl Nat.min l

/-- The title computed for one tab at relative depth `level`:
`'>'.repeat(level) + ' ' + title` when the depth is positive,
otherwise the title with any marker-like prefix stripped. -/
def titleWithMarkers (title : String) (level : Nat) : String :=
  if level = 0 then stripMarker title
  else String.mk (List.replicate level '>') ++ " " ++ title

/-- Function `getTitlesWithTreeStructure(tabs)` from `bookmark.js`: one title
per tab, the tab's own title prefixed with one marker character per
tree level beyond the shallowest tab of the set. -/
def getTitlesWithTreeStructure (tabs : List TabInfo) : List String :=
  tabs.map (fun tab => titleWithMarkers tab.title (tab.level - minLevel tabs))

/-- The external collaborators `tryGroupCreatedBookmarks` consults:
the digest utility `sha1sum` (from `common.js`, outside this pair of
files), `browser.bookmarks.getChildren`, `Tab.get` (projected to the
attributes the grouper reads), and the id the bookmark store assigns
to the newly created folder. -/
structure GrouperEnv where
  digestFn    : String → String
  getChildren : Nat → List Bookmark
  getTab      : Nat → TabInfo
  newFolderId : Nat

/-- The grouper's mutable module-level state: the pending batch
`mCreatedBookmarks` and the external record slot
`configs.lastDraggedTabs`. -/
structure GrouperState where
  mCreatedBookmarks : List Bookmark
  lastDraggedTabs   : Option LastDraggedTabs
deriving DecidableEq, Repr

/-- Outcome of one flush: the state it leaves behind, the
bookmark-store mutations it issued in order, and whether it raised an
error instead of completing normally. -/
structure FlushResult where
  state   : GrouperState
  ops     : List BookmarkOp
  errored : Bool
deriving DecidableEq, Repr

/-- String the batch's URLs are digested from:
`bookmarks.map(tab => tab.url).join('\n')`. -/
def joinedUrls (bookmarks : List Bookmark) : String :=
  String.intercalate "\n" (bookmarks.map Bookmark.url)

/-- The grouping tail of `tryGroupCreatedBookmarks` (after all guards
passed): create a folder titled and positioned after the first
bookmark, move every batch bookmark into it in order, handle the
group-tab special case, and update every title that differs from the
corresponding tab's title. -/
def groupBookmarks (env : GrouperEnv) (last : LastDraggedTabs)
    (bookmarks : List Bookmark) (b0 : Bookmark) : List BookmarkOp :=
  let folderOp := BookmarkOp.createFolder b0.title b0.index b0.parentId
  let moveOps := bookmarks.enum.map (fun p => BookmarkOp.move p.2.id env.newFolderId p.1)
  let tabs := last.tabIds.map env.getTab
  let titles := getTitlesWithTreeStructure tabs
  let groupCase : Bool :=
    (match tabs with
     | t0 :: _ => t0.isGroupTab
     | [] => false)
    && (titles.filter (fun t => ¬ t.startsWith ">")).length = 1
  let removeOps := if groupCase then [BookmarkOp.remove b0.id] else []
  let tabs2 := if groupCase then tabs.tail else tabs
  let bookmarks2 := if groupCase then bookmarks.tail else bookmarks
  let titles2 := getTitlesWithTreeStructure tabs2
  let updateOps :=
    ((bookmarks2.zip titles2).zip tabs2).filterMap
      (fun p =>
        if p.1.2 = p.2.title then none
        else some (BookmarkOp.update p.1.1.id p.1.2))
  folderOp :: moveOps ++ removeOps ++ updateOps

/-- Function `tryGroupCreatedBookmarks` from `bookmark.js`: snapshot and clear
the pending batch, digest the batch's URLs, clear
`configs.lastDraggedTabs`, and dereference the snapshot's
`urlsDigest` (raising a TypeError when the slot was null); on a digest
match, apply the size / single-parent / blank-folder guards and group
the bookmarks under a new folder. -/
def tryGroupCreatedBookmarks (env : GrouperEnv) (st : GrouperState) : FlushResult :=
  let bookmarks := st.mCreatedBookmarks
  let cleared : GrouperState := ⟨[], none⟩
  match st.lastDraggedTabs with
  | none =>
    -- `lastDraggedTabs.urlsDigest` dereferences null: the flush throws
    -- after the batch and the record slot were already cleared.
    ⟨cleared, [], true⟩
  | some last =>
    let digest := env.digestFn (joinedUrls bookmarks)
    if digest ≠ last.urlsDigest then ⟨cleared, [], false⟩
    else if bookmarks.length < 2 then ⟨cleared, [], false⟩
    else
      match bookmarks with
      | [] => ⟨cleared, [], false⟩
      | b0 :: rest =>
        if ((b0 :: rest).map Bookmark.parentId).dedup.length > 1 then
          ⟨cleared, [], false⟩
        else if (env.getChildren b0.parentId).length = (b0 :: rest).length then
          ⟨cleared, [], false⟩
        else
          ⟨cleared, groupBookmarks env last (b0 :: rest) b0, false⟩

/-! ## Theorems about the bookmark-batch grouper -/

/-- C1: For every flush of a pending bookmark batch, the
last-dragged-tabs record is cleared unconditionally (whether or not
the digest matches), and if the digest computed over the batch's
bookmark URLs in arrival order differs from the record's `urlsDigest`,
the flush performs no bookmark mutation at all (no create, move,
update, or remove is issued). -/
theorem flush_clears_record_and_mismatch_mutates_nothing
    (env : GrouperEnv) (st : GrouperState) :
    (tryGroupCreatedBookmarks env st).state.lastDraggedTabs = none ∧
    (∀ last, st.lastDraggedTabs = some last →
      env.digestFn (joinedUrls st.mCreatedBookmarks) ≠ last.urlsDigest →
      (tryGroupCreatedBookmarks env st).ops = []) := by
  constructor
  · unfold tryGroupCreatedBookmarks
    cases h : st.lastDraggedTabs with
    | none => rfl
    | some last =>
      cases hb : st.mCreatedBookmarks with
      | nil => dsimp only; split_ifs <;> rfl
      | cons b0 rest => dsimp only; split_ifs <;> rfl
  · intro last hl hd
    unfold tryGroupCreatedBookmarks
    rw [hl]
    dsimp only
    rw [if_pos hd]

/-- Witness for C1 at a concrete mismatched flush: a batch of one
bookmark whose identity-digested URL differs from the recorded
digest. -/
theorem flush_clears_record_and_mismatch_mutates_nothing_witness :
    (tryGroupCreatedBookmarks
        ⟨fun s => s, fun _ => [], fun _ => ⟨"", 0, false⟩, 9⟩
        ⟨[⟨1, 7, "A", "u1", 0⟩], some ⟨[10], "other"⟩⟩).state.lastDraggedTabs
      = none ∧
    (tryGroupCreatedBookmarks
        ⟨fun s => s, fun _ => [], fun _ => ⟨"", 0, false⟩, 9⟩
        ⟨[⟨1, 7, "A", "u1", 0⟩], some ⟨[10], "other"⟩⟩).ops = [] := by
  have h := flush_clears_record_and_mismatch_mutates_nothing
    ⟨fun s => s, fun _ => [], fun _ => ⟨"", 0, false⟩, 9⟩
    ⟨[⟨1, 7, "A", "u1", 0⟩], some ⟨[10], "other"⟩⟩
  exact ⟨h.1, h.2 ⟨[10], "other"⟩ rfl (by decide)⟩

/-- C10: If a flush runs while no last-dragged-tabs record exists (the
record slot is null), `tryGroupCreatedBookmarks` raises an error at
the digest comparison (a null dereference of `urlsDigest`) rather than
completing normally; the pending batch and the record slot have
already been cleared at that point, and no bookmark create, move,
update, or remove has been issued, so the bookmark store is left
unchanged. -/
theorem flush_without_record_errors_after_clearing
    (env : GrouperEnv) (st : GrouperState)
    (h : st.lastDraggedTabs = none) :
    (tryGroupCreatedBookmarks env st).errored = true ∧
    (tryGroupCreatedBookmarks env st).ops = [] ∧
    (tryGroupCreatedBookmarks env st).state.mCreatedBookmarks = [] ∧
    (tryGroupCreatedBookmarks env st).state.lastDraggedTabs = none := by
  unfold tryGroupCreatedBookmarks
  rw [h]
  exact ⟨rfl, rfl, rfl, rfl⟩

/-- Witness for C10: a flush of a two-bookmark batch with a null
record slot. -/
theorem flush_without_record_errors_after_clearing_witness :
    (tryGroupCreatedBookmarks
        ⟨fun s => s, fun _ => [], fun _ => ⟨"", 0, false⟩, 9⟩
        ⟨[⟨1, 7, "A", "u1", 0⟩, ⟨2, 7, "B", "u2", 1⟩], none⟩).errored = true ∧
    (tryGroupCreatedBookmarks
        ⟨fun s => s, fun _ => [], fun _ => ⟨"", 0, false⟩, 9⟩
        ⟨[⟨1, 7, "A", "u1", 0⟩, ⟨2, 7, "B", "u2", 1⟩], none⟩).ops = [] ∧
    (tryGroupCreatedBookmarks
        ⟨fun s => s, fun _ => [], fun _ => ⟨"", 0, false⟩, 9⟩
        ⟨[⟨1, 7, "A", "u1", 0⟩, ⟨2, 7, "B", "u2", 1⟩], none⟩).state.mCreatedBookmarks = [] ∧
    (tryGroupCreatedBookmarks
        ⟨fun s => s, fun _ => [], fun _ => ⟨"", 0, false⟩, 9⟩
        ⟨[⟨1, 7, "A", "u1", 0⟩, ⟨2, 7, "B", "u2", 1⟩], none⟩).state.lastDraggedTabs = none :=
  flush_without_record_errors_after_clearing
    ⟨fun s => s, fun _ => [], fun _ => ⟨"", 0, false⟩, 9⟩
    ⟨[⟨1, 7, "A", "u1", 0⟩, ⟨2, 7, "B", "u2", 1⟩], none⟩ rfl

/-- A nodup list whose elements are pairwise equal has at most one
element. -/
lemma length_le_one_of_nodup_of_all_eq {l : List Nat} (hn : l.Nodup)
    (h : ∀ a ∈ l, ∀ b ∈ l, a = b) : l.length ≤ 1 := by
  match l with
  | [] => simp
  | [x] => simp
  | x :: y :: rest =>
    exfalso
    have hxy : x = y := h x (by simp) y (by simp)
    rw [List.nodup_cons] at hn
    exact hn.1 (by rw [hxy]; exact List.mem_cons_self y rest)

/-- The single-parent guard of `tryGroupCreatedBookmarks` (the `Set`
of all `parentId`s has size at most 1) holds exactly when the list's
elements are pairwise equal. -/
lemma dedup_length_le_one_iff (l : List Nat) :
    l.dedup.length ≤ 1 ↔ ∀ a ∈ l, ∀ b ∈ l, a = b := by
  constructor
  · intro h a ha b hb
    have ha2 : a ∈ l.dedup := List.mem_dedup.mpr ha
    have hb2 : b ∈ l.dedup := List.mem_dedup.mpr hb
    cases hd : l.dedup with
    | nil => rw [hd] at ha2; cases ha2
    | cons x t =>
      cases t with
      | nil =>
        rw [hd] at ha2 hb2
        simp only [List.mem_singleton] at ha2 hb2
        rw [ha2, hb2]
      | cons y t2 =>
        rw [hd] at h
        simp at h
  · intro h
    exact length_le_one_of_nodup_of_all_eq l.nodup_dedup
      (fun a ha b hb => h a (List.mem_dedup.mp ha) b (List.mem_dedup.mp hb))

/-- C3 counterexample: the claim requires the shared parent's child
count to strictly exceed the batch size for any mutation to happen,
but the source guard aborts only when the two are equal
(`allChildren.length == bookmarks.length`). With a matching
two-bookmark batch whose parent reports a single child (a sibling
vanished between creation and flush), the flush still mutates even
though 1 does not exceed 2. -/
theorem group_guards_counterexample :
    (tryGroupCreatedBookmarks
        ⟨fun s => s, fun _ => [⟨1, 7, "A", "u1", 0⟩],
         fun _ => ⟨"A", 0, false⟩, 9⟩
        ⟨[⟨1, 7, "A", "u1", 0⟩, ⟨2, 7, "B", "u2", 1⟩],
         some ⟨[10, 11], "u1\nu2"⟩⟩).ops ≠ [] ∧
    ¬ ([(⟨1, 7, "A", "u1", 0⟩ : Bookmark),
        ⟨2, 7, "B", "u2", 1⟩].length
        < [(⟨1, 7, "A", "u1", 0⟩ : Bookmark)].length) := by
  constructor
  · decide
  · decide

/-- C3 (amended): no bookmark mutation is performed unless the batch
contains at least 2 bookmarks, all batch bookmarks share a single
parent folder, and the shared parent's total child count differs from
the batch size; if any of these guards fails the flush issues no
mutation. -/
theorem group_guards
    (env : GrouperEnv) (st : GrouperState) :
    ((tryGroupCreatedBookmarks env st).ops ≠ [] →
      2 ≤ st.mCreatedBookmarks.length ∧
      (∀ b1 ∈ st.mCreatedBookmarks, ∀ b2 ∈ st.mCreatedBookmarks,
        b1.parentId = b2.parentId) ∧
      (∀ b0 ∈ st.mCreatedBookmarks.head?,
        (env.getChildren b0.parentId).length ≠ st.mCreatedBookmarks.length)) ∧
    ((st.mCreatedBookmarks.length < 2 ∨
      ¬ (∀ b1 ∈ st.mCreatedBookmarks, ∀ b2 ∈ st.mCreatedBookmarks,
          b1.parentId = b2.parentId) ∨
      (∃ b0 ∈ st.mCreatedBookmarks.head?,
        (env.getChildren b0.parentId).length = st.mCreatedBookmarks.length)) →
      (tryGroupCreatedBookmarks env st).ops = []) := by
  unfold tryGroupCreatedBookmarks
  cases hl : st.lastDraggedTabs with
  | none => exact ⟨fun hops => absurd rfl hops, fun _ => rfl⟩
  | some last =>
    cases hb : st.mCreatedBookmarks with
    | nil =>
      constructor
      · intro hops
        exfalso
        apply hops
        dsimp only
        split_ifs <;> rfl
      · intro _
        dsimp only
        split_ifs <;> rfl
    | cons b0 rest =>
      dsimp only
      split_ifs with h1 h2 h3 h4
      · exact ⟨fun hops => absurd rfl hops, fun _ => rfl⟩
      · exact ⟨fun hops => absurd rfl hops, fun _ => rfl⟩
      · exact ⟨fun hops => absurd rfl hops, fun _ => rfl⟩
      · exact ⟨fun hops => absurd rfl hops, fun _ => rfl⟩
      · have hshared : ∀ a ∈ b0 :: rest, ∀ b ∈ b0 :: rest,
            a.parentId = b.parentId := by
          intro a ha b hbm
          have hle : ((b0 :: rest).map Bookmark.parentId).dedup.length ≤ 1 :=
            Nat.not_lt.mp h3
          exact (dedup_length_le_one_iff _).mp hle a.parentId
            (List.mem_map_of_mem Bookmark.parentId ha) b.parentId
            (List.mem_map_of_mem Bookmark.parentId hbm)
        constructor
        · intro _
          refine ⟨Nat.not_lt.mp h2, hshared, ?_⟩
          intro b hbm
          simp only [List.head?_cons, Option.mem_def, Option.some.injEq] at hbm
          rw [← hbm]
          exact h4
        · intro hfail
          exfalso
          rcases hfail with hlen | hsh | ⟨b, hbm, heq⟩
          · exact h2 hlen
          · exact hsh hshared
          · simp only [List.head?_cons, Option.mem_def, Option.some.injEq] at hbm
            rw [← hbm] at heq
            exact h4 heq

/-- Witness for C3's amended theorem: a single-bookmark batch never
mutates. -/
theorem group_guards_witness :
    (tryGroupCreatedBookmarks
        ⟨fun s => s, fun _ => [], fun _ => ⟨"", 0, false⟩, 9⟩
        ⟨[⟨1, 7, "A", "u1", 0⟩], some ⟨[10], "u1"⟩⟩).ops = [] :=
  (group_guards
    ⟨fun s => s, fun _ => [], fun _ => ⟨"", 0, false⟩, 9⟩
    ⟨[⟨1, 7, "A", "u1", 0⟩], some ⟨[10], "u1"⟩⟩).2 (Or.inl (by decide))

/-- A nonempty string prepended to a string never yields that string
back (the lengths differ). -/
lemma append_ne_self_of_length_pos (p s : String) (h : 0 < p.length) :
    p ++ s ≠ s := by
  intro he
  have hlen := congrArg String.length he
  rw [String.length_append] at hlen
  omega

/-- The one-level marker prefix evaluates to the literal marker-space
string. -/
lemma one_marker_eq : String.mk (List.replicate 1 '>') ++ " " = "> " := rfl

/-- A tab at the minimal depth gets its title with any marker-like
prefix stripped. -/
lemma titleWithMarkers_zero (s : String) :
    titleWithMarkers s 0 = stripMarker s := rfl

/-- A tab one level below the minimal depth gets a single marker and
a space prepended. -/
lemma titleWithMarkers_one (s : String) :
    titleWithMarkers s 1 = "> " ++ s := rfl

/-- C2: For a drag record of three tabs at depths [0, 1, 1] whose
digest matches a batch of 3 bookmarks sharing one parent folder that
has additional pre-existing children, flush creates exactly one new
folder under that shared parent, titled after the first bookmark and
placed at the first bookmark's former index, moves the 3 batch
bookmarks into it preserving their original order at indices 0..2,
and retitles them so the depth-0 bookmark keeps its title (with any
leading marker prefix stripped) and each depth-1 bookmark's title is
prefixed with the marker and a space. -/
theorem flush_groups_matching_batch
    (env : GrouperEnv) (b1 b2 b3 : Bookmark) (t1 t2 t3 : TabInfo)
    (i1 i2 i3 : Nat)
    (hp2 : b2.parentId = b1.parentId) (hp3 : b3.parentId = b1.parentId)
    (hchild : 3 < (env.getChildren b1.parentId).length)
    (ht1 : env.getTab i1 = t1) (ht2 : env.getTab i2 = t2)
    (ht3 : env.getTab i3 = t3)
    (hl1 : t1.level = 0) (hl2 : t2.level = 1) (hl3 : t3.level = 1)
    (hg : t1.isGroupTab = false)
    (hbt1 : b1.title = t1.title) (hbt2 : b2.title = t2.title)
    (hbt3 : b3.title = t3.title) :
    tryGroupCreatedBookmarks env
      ⟨[b1, b2, b3],
       some ⟨[i1, i2, i3], env.digestFn (joinedUrls [b1, b2, b3])⟩⟩ =
    ⟨⟨[], none⟩,
     [BookmarkOp.createFolder b1.title b1.index b1.parentId,
      BookmarkOp.move b1.id env.newFolderId 0,
      BookmarkOp.move b2.id env.newFolderId 1,
      BookmarkOp.move b3.id env.newFolderId 2] ++
     ((if stripMarker b1.title = b1.title then []
       else [BookmarkOp.update b1.id (stripMarker b1.title)]) ++
      [BookmarkOp.update b2.id ("> " ++ b2.title),
       BookmarkOp.update b3.id ("> " ++ b3.title)]),
     false⟩ := by
  rw [hbt1, hbt2, hbt3]
  have hA : ¬ (env.digestFn (joinedUrls [b1, b2, b3])
      ≠ env.digestFn (joinedUrls [b1, b2, b3])) := fun hc => hc rfl
  have hB : ¬ ([b1, b2, b3].length < 2) := by simp
  have hC : ¬ ((List.map Bookmark.parentId [b1, b2, b3]).dedup.length > 1) := by
    rw [List.map_cons, List.map_cons, List.map_cons, List.map_nil, hp2, hp3]
    simp [List.dedup_cons_of_mem]
  have hD : ¬ ((env.getChildren b1.parentId).length = [b1, b2, b3].length) := by
    simp only [List.length_cons, List.length_nil]
    omega
  unfold tryGroupCreatedBookmarks
  dsimp only
  rw [if_neg hA, if_neg hB, if_neg hC, if_neg hD]
  have hmin : minLevel [t1, t2, t3] = 0 := by
    unfold minLevel
    rw [List.map_cons, List.map_cons, List.map_cons, List.map_nil,
      hl1, hl2, hl3]
    decide
  unfold groupBookmarks
  dsimp only [List.map_cons, List.map_nil, List.enum, List.enumFrom,
    List.zip, List.zipWith, List.filterMap]
  rw [ht1, ht2, ht3, hg]
  simp only [Bool.false_and, Bool.false_eq_true, if_false]
  have htitles : getTitlesWithTreeStructure [t1, t2, t3] =
      [stripMarker t1.title, "> " ++ t2.title, "> " ++ t3.title] := by
    unfold getTitlesWithTreeStructure
    rw [hmin]
    simp only [List.map_cons, List.map_nil, hl1, hl2, hl3, Nat.sub_zero,
      titleWithMarkers_zero, titleWithMarkers_one]
  rw [htitles]
  dsimp only [List.zipWith, List.filterMap]
  rw [if_neg (append_ne_self_of_length_pos "> " t2.title (by decide)),
    if_neg (append_ne_self_of_length_pos "> " t3.title (by decide))]
  by_cases hsm : stripMarker t1.title = t1.title
  · rw [if_pos hsm, if_pos hsm]
    simp [hbt1]
  · rw [if_neg hsm, if_neg hsm]
    simp [hbt1]

/-- Witness for C2 at a concrete matching batch of three bookmarks
under a parent with two pre-existing siblings. -/
theorem flush_groups_matching_batch_witness :
    tryGroupCreatedBookmarks
      ⟨fun s => s,
       fun _ => [⟨1, 7, "A", "u1", 0⟩, ⟨2, 7, "B", "u2", 1⟩,
                 ⟨3, 7, "C", "u3", 2⟩, ⟨8, 7, "x", "ux", 3⟩,
                 ⟨9, 7, "y", "uy", 4⟩],
       fun i => if i = 10 then ⟨"A", 0, false⟩
                else if i = 11 then ⟨"B", 1, false⟩
                else ⟨"C", 1, false⟩,
       99⟩
      ⟨[⟨1, 7, "A", "u1", 0⟩, ⟨2, 7, "B", "u2", 1⟩, ⟨3, 7, "C", "u3", 2⟩],
       some ⟨[10, 11, 12], "u1\nu2\nu3"⟩⟩ =
    ⟨⟨[], none⟩,
     [BookmarkOp.createFolder "A" 0 7,
      BookmarkOp.move 1 99 0,
      BookmarkOp.move 2 99 1,
      BookmarkOp.move 3 99 2] ++
     ((if stripMarker "A" = "A" then []
       else [BookmarkOp.update 1 (stripMarker "A")]) ++
      [BookmarkOp.update 2 ("> " ++ "B"),
       BookmarkOp.update 3 ("> " ++ "C")]),
     false⟩ :=
  flush_groups_matching_batch
    ⟨fun s => s,
     fun _ => [⟨1, 7, "A", "u1", 0⟩, ⟨2, 7, "B", "u2", 1⟩,
               ⟨3, 7, "C", "u3", 2⟩, ⟨8, 7, "x", "ux", 3⟩,
               ⟨9, 7, "y", "uy", 4⟩],
     fun i => if i = 10 then ⟨"A", 0, false⟩
              else if i = 11 then ⟨"B", 1, false⟩
              else ⟨"C", 1, false⟩,
     99⟩
    ⟨1, 7, "A", "u1", 0⟩ ⟨2, 7, "B", "u2", 1⟩ ⟨3, 7, "C", "u3", 2⟩
    ⟨"A", 0, false⟩ ⟨"B", 1, false⟩ ⟨"C", 1, false⟩
    10 11 12
    rfl rfl (by decide) rfl rfl rfl rfl rfl rfl rfl rfl rfl rfl

/-! ## The bulk-create suppression counter `mCreatingCount` -/

/-- The kinds of bulk bookmark-creation operations that bracket the
suppression counter, with the amount each adds: `bookmarkTab`
increments by 1, `bookmarkTabs` by `tabs.length + 1`
(`toBeCreatedCount`, N tabs plus 1 folder), and the grouper's folder
creation in `tryGroupCreatedBookmarks` by 1. -/
inductive BulkKind where
  | singleTab
  | tabsFolder (tabCount : Nat)
  | groupFolder
deriving DecidableEq, Repr

/-- The increment each bulk operation applies to `mCreatingCount`. -/
def BulkKind.amount : BulkKind → Nat
  | .singleTab => 1
  | .tabsFolder n => n + 1
  | .groupFolder => 1

/-- The grace delay of `wait(150)` after which each bulk operation's
decrement continuation runs. -/
def graceDelay : Nat := 150

/-- One bulk operation on the timeline: `mCreatingCount` is
incremented by `kind.amount` at `startTime` (before the creations are
issued) and decremented by the same amount at `endTime + graceDelay`
(the `wait(150).then(...)` continuation scheduled at completion). -/
structure BulkOp where
  kind      : BulkKind
  startTime : Nat
  endTime   : Nat
deriving DecidableEq, Repr

/-- The contribution of one bulk operation to `mCreatingCount` at
time `t`. -/
def opContribution (t : Nat) (op : BulkOp) : Int :=
  (if op.startTime ≤ t then (op.kind.amount : Int) else 0)
    - (if op.endTime + graceDelay ≤ t then (op.kind.amount : Int) else 0)

/-- Value of `mCreatingCount` at time `t`: every increment issued at or before
`t` minus every decrement whose grace delay has elapsed by `t`. -/
def creatingCountAt (ops : List BulkOp) (t : Nat) : Int :=
  (ops.map (opContribution t)).sum

/-- Each bulk operation's contribution is nonnegative whenever its
increment is issued no later than its completion. -/
lemma opContribution_nonneg (t : Nat) (op : BulkOp)
    (h : op.startTime ≤ op.endTime) : 0 ≤ opContribution t op := by
  unfold opContribution
  split_ifs with hs h1 h2
  · simp
  · simp
  · exact absurd (le_trans h (le_trans (Nat.le_add_right _ _) h2)) hs
  · simp

/-- Once a bulk operation's grace delay has elapsed, its contribution
is exactly zero. -/
lemma opContribution_eq_zero (t : Nat) (op : BulkOp)
    (h : op.startTime ≤ op.endTime) (he : op.endTime + graceDelay ≤ t) :
    opContribution t op = 0 := by
  unfold opContribution
  rw [if_pos (le_trans h (le_trans (Nat.le_add_right _ _) he)), if_pos he]
  simp

/-- C8: The bulk-create suppression counter `mCreatingCount` never
becomes negative, and after every bulk bookmark-creation operation it
returns to zero once the 150-time-unit grace delay elapses: each
operation increments it by the number of creations it will issue
(N tabs plus 1 folder for `bookmarkTabs`, 1 for the grouper's folder)
before creating, and decrements it by exactly the same amount 150
time units after completion. -/
theorem creatingCount_nonneg_and_returns_to_zero
    (ops : List BulkOp) (t : Nat)
    (hwf : ∀ op ∈ ops, op.startTime ≤ op.endTime) :
    0 ≤ creatingCountAt ops t ∧
    ((∀ op ∈ ops, op.endTime + graceDelay ≤ t) →
      creatingCountAt ops t = 0) := by
  constructor
  · apply List.sum_nonneg
    intro x hx
    rcases List.mem_map.mp hx with ⟨op, hop, hox⟩
    rw [← hox]
    exact opContribution_nonneg t op (hwf op hop)
  · intro hall
    apply List.sum_eq_zero
    intro x hx
    rcases List.mem_map.mp hx with ⟨op, hop, hox⟩
    rw [← hox]
    exact opContribution_eq_zero t op (hwf op hop) (hall op hop)

/-- Witness for C8: a `bookmarkTabs` run over three tabs and a
grouper folder creation, observed after both grace delays elapsed. -/
theorem creatingCount_nonneg_and_returns_to_zero_witness :
    0 ≤ creatingCountAt
        [⟨BulkKind.tabsFolder 3, 0, 10⟩, ⟨BulkKind.groupFolder, 5, 20⟩] 400 ∧
    creatingCountAt
        [⟨BulkKind.tabsFolder 3, 0, 10⟩, ⟨BulkKind.groupFolder, 5, 20⟩] 400 = 0 := by
  have h := creatingCount_nonneg_and_returns_to_zero
    [⟨BulkKind.tabsFolder 3, 0, 10⟩, ⟨BulkKind.groupFolder, 5, 20⟩] 400
    (by decide)
  exact ⟨h.1, h.2 (by decide)⟩

/-! ## The bookmark-creation listener and its debounce timer -/

/-- The debounce quiet period of
`reserveToGroupCreatedBookmarks` (`setTimeout(..., 250)`). -/
def debounceDelay : Nat := 250

/-- The timer bookkeeping around
`reserveToGroupCreatedBookmarks.reserved`: the live (scheduled, not
yet fired or cancelled) timeout entries as `(handle, fireTime)`
pairs, the handle stored in the `reserved` property, and the fresh
handle `setTimeout` hands out next. -/
structure TimerState where
  live       : List (Nat × Nat)
  reserved   : Option Nat
  nextHandle : Nat
deriving DecidableEq, Repr

/-- Function `reserveToGroupCreatedBookmarks` from `bookmark.js`: clear the
previously reserved timeout if any, then schedule a fresh one for 250
time units from now and remember its handle. -/
def reserveToGroupCreatedBookmarks (now : Nat) (ts : TimerState) : TimerState :=
  let live1 :=
    match ts.reserved with
    | some h => ts.live.filter (fun e => e.1 ≠ h)
    | none => ts.live
  ⟨live1 ++ [(ts.nextHandle, now + debounceDelay)], some ts.nextHandle,
    ts.nextHandle + 1⟩

/-- The timer bookkeeping of the scheduled callback firing: the
timeout leaves the live set, and the callback nulls out `reserved`
before flushing (the flush itself is `tryGroupCreatedBookmarks`). -/
def debounceFired (ts : TimerState) (h : Nat) : TimerState :=
  if (ts.live.filter (fun e => e.1 = h)).isEmpty then ts
  else
    ⟨ts.live.filter (fun e => e.1 ≠ h),
      if ts.reserved = some h then none else ts.reserved,
      ts.nextHandle⟩

/-- The listener's state: the pending batch plus the debounce timer
bookkeeping. -/
structure ListenerState where
  batch  : List Bookmark
  timers : TimerState
deriving DecidableEq, Repr

/-- Function `onBookmarksCreated` from `bookmark.js`: ignore the event unless
the bookmarks permission is granted and no bulk-create suppression is
active (`mCreatingCount > 0`); otherwise append the bookmark to the
pending batch and reset the debounce timer. -/
def onBookmarksCreated (granted : Bool) (mCreatingCount : Nat)
    (now : Nat) (st : ListenerState) (bookmark : Bookmark) : ListenerState :=
  if ¬ granted ∨ 0 < mCreatingCount then st
  else ⟨st.batch ++ [bookmark], reserveToGroupCreatedBookmarks now st.timers⟩

/-- Every live timeout entry is the reserved one: the inductive
invariant tying `reserveToGroupCreatedBookmarks.reserved` to the set
of scheduled timeouts. -/
def TimerInv (ts : TimerState) : Prop :=
  ∀ e ∈ ts.live, ts.reserved = some e.1

/-- An event of the grouper's state machine: a bookmark-creation
event delivered with the ambient permission and counter values, or a
scheduled timeout firing. -/
inductive GrouperEvent where
  | created (granted : Bool) (mCreatingCount : Nat) (now : Nat) (b : Bookmark)
  | fired (h : Nat)
deriving DecidableEq, Repr

/-- One transition of the listener's state machine. -/
def stepEvent (st : ListenerState) : GrouperEvent → ListenerState
  | .created g c now b => onBookmarksCreated g c now st b
  | .fired h => ⟨st.batch, debounceFired st.timers h⟩

/-- A run of the listener from a state over an event sequence. -/
def runEvents (st : ListenerState) (es : List GrouperEvent) : ListenerState :=
  es.foldl stepEvent st

/-- The initial listener state: empty batch, nothing scheduled. -/
def initialListenerState : ListenerState := ⟨[], ⟨[], none, 0⟩⟩

/-- Reserving preserves the timer invariant, and under the invariant
the cancel-and-reschedule leaves exactly the one fresh timeout
scheduled for 250 time units out. -/
lemma timerInv_reserve (now : Nat) (ts : TimerState) (hinv : TimerInv ts) :
    TimerInv (reserveToGroupCreatedBookmarks now ts) ∧
    (reserveToGroupCreatedBookmarks now ts).live
      = [(ts.nextHandle, now + debounceDelay)] := by
  have hlive : (match ts.reserved with
      | some h => ts.live.filter (fun e => e.1 ≠ h)
      | none => ts.live) = [] := by
    cases hr : ts.reserved with
    | none =>
      cases hl : ts.live with
      | nil => rfl
      | cons e rest =>
        exfalso
        have := hinv e (by rw [hl]; exact List.mem_cons_self e rest)
        rw [hr] at this
        cases this
    | some h =>
      apply List.filter_eq_nil_iff.mpr
      intro e he
      have := hinv e he
      rw [hr] at this
      injection this with hh
      simp [hh]
  constructor
  · intro e he
    unfold reserveToGroupCreatedBookmarks at he
    rw [hlive] at he
    simp only [List.nil_append, List.mem_singleton] at he
    rw [he]
    rfl
  · unfold reserveToGroupCreatedBookmarks
    rw [hlive]
    rfl

/-- Firing preserves the timer invariant. -/
lemma timerInv_fired (ts : TimerState) (h : Nat) (hinv : TimerInv ts) :
    TimerInv (debounceFired ts h) := by
  unfold debounceFired
  split_ifs with hempty hr
  · exact hinv
  · intro e he
    exfalso
    simp only [List.mem_filter] at he
    have hres := hinv e he.1
    rw [hr] at hres
    injection hres with hh
    have hne : ¬ e.1 = h := by simpa using he.2
    exact hne hh.symm
  · intro e he
    simp only [List.mem_filter] at he
    exact hinv e he.1

/-- Firing never grows the live set. -/
lemma debounceFired_length (ts : TimerState) (h : Nat) :
    (debounceFired ts h).live.length ≤ ts.live.length := by
  unfold debounceFired
  split_ifs
  · exact le_refl _
  · exact List.length_filter_le _ _
  · exact List.length_filter_le _ _

/-- Under the invariant the live list never holds two entries: every
entry carries the single reserved handle; entries are only ever added
by a reserve, which first empties the list. -/
lemma timerInv_length (st : ListenerState) (es : List GrouperEvent)
    (hinv : TimerInv st.timers) (hlen : st.timers.live.length ≤ 1) :
    TimerInv (runEvents st es).timers ∧
    (runEvents st es).timers.live.length ≤ 1 := by
  induction es generalizing st with
  | nil => exact ⟨hinv, hlen⟩
  | cons e rest ih =>
    unfold runEvents
    rw [List.foldl_cons]
    rcases e with ⟨g, c, now, b⟩ | h
    · have hstep : stepEvent st (GrouperEvent.created g c now b)
          = onBookmarksCreated g c now st b := rfl
      rw [hstep]
      by_cases hguard : ¬ g = true ∨ 0 < c
      · have h1 : onBookmarksCreated g c now st b = st := by
          unfold onBookmarksCreated
          rw [if_pos hguard]
        rw [h1]
        exact ih st hinv hlen
      · have hres := timerInv_reserve now st.timers hinv
        have h1 : onBookmarksCreated g c now st b
            = ⟨st.batch ++ [b], reserveToGroupCreatedBookmarks now st.timers⟩ := by
          unfold onBookmarksCreated
          rw [if_neg hguard]
        rw [h1]
        exact ih _ hres.1 (by rw [hres.2]; simp)
    · have hstep : stepEvent st (GrouperEvent.fired h)
          = ⟨st.batch, debounceFired st.timers h⟩ := rfl
      rw [hstep]
      exact ih _ (timerInv_fired st.timers h hinv)
        (le_trans (debounceFired_length st.timers h) hlen)

/-- C9: For every bookmark-creation event delivered to the grouper,
the bookmark is appended to the pending batch if and only if the
bookmarks permission is granted and `mCreatingCount` equals zero; and
every accepted event cancels any previously reserved debounce timer
and schedules a new one 250 time units out, so any run from the
initial state keeps at most one flush timer live at any time. -/
theorem onBookmarksCreated_accepts_iff_and_single_timer :
    (∀ (granted : Bool) (count now : Nat) (st : ListenerState) (b : Bookmark),
      ((onBookmarksCreated granted count now st b).batch = st.batch ++ [b]
        ↔ (granted = true ∧ count = 0)) ∧
      (granted = true ∧ count = 0 → TimerInv st.timers →
        (onBookmarksCreated granted count now st b).timers.reserved
            = some st.timers.nextHandle ∧
        (onBookmarksCreated granted count now st b).timers.live
            = [(st.timers.nextHandle, now + debounceDelay)])) ∧
    (∀ es : List GrouperEvent,
      (runEvents initialListenerState es).timers.live.length ≤ 1) := by
  constructor
  · intro granted count now st b
    constructor
    · constructor
      · intro happ
        by_contra hng
        have hguard : ¬ granted = true ∨ 0 < count := by
          rcases Decidable.em (granted = true) with hg | hg
          · rcases Nat.eq_zero_or_pos count with hc | hc
            · exact absurd ⟨hg, hc⟩ hng
            · exact Or.inr hc
          · exact Or.inl hg
        unfold onBookmarksCreated at happ
        rw [if_pos hguard] at happ
        have := congrArg List.length happ
        simp at this
      · intro ⟨hg, hc⟩
        unfold onBookmarksCreated
        rw [if_neg (by simp [hg, hc])]
    · intro ⟨hg, hc⟩ hinv
      unfold onBookmarksCreated
      rw [if_neg (by simp [hg, hc])]
      exact ⟨rfl, (timerInv_reserve now st.timers hinv).2⟩
  · intro es
    exact (timerInv_length initialListenerState es (by intro e he; cases he) (by decide)).2

/-- Witness for C9: an accepted event on the initial state appends
its bookmark and schedules the one debounce timer; a two-event run
keeps at most one timer live. -/
theorem onBookmarksCreated_accepts_iff_and_single_timer_witness :
    (onBookmarksCreated true 0 7 ⟨[], ⟨[], none, 0⟩⟩
        ⟨1, 7, "A", "u1", 0⟩).batch = [] ++ [⟨1, 7, "A", "u1", 0⟩] ∧
    (onBookmarksCreated true 0 7 ⟨[], ⟨[], none, 0⟩⟩
        ⟨1, 7, "A", "u1", 0⟩).timers.live = [(0, 7 + debounceDelay)] ∧
    (runEvents initialListenerState
        [GrouperEvent.created true 0 7 ⟨1, 7, "A", "u1", 0⟩,
         GrouperEvent.created true 0 100 ⟨2, 7, "B", "u2", 1⟩]).timers.live.length
      ≤ 1 := by
  have h := onBookmarksCreated_accepts_iff_and_single_timer
  refine ⟨?_, ?_, h.2 _⟩
  · exact (h.1 true 0 7 ⟨[], ⟨[], none, 0⟩⟩ ⟨1, 7, "A", "u1", 0⟩).1.mpr ⟨rfl, rfl⟩
  · exact ((h.1 true 0 7 ⟨[], ⟨[], none, 0⟩⟩ ⟨1, 7, "A", "u1", 0⟩).2
      ⟨rfl, rfl⟩ (fun e he => absurd he (List.not_mem_nil e))).2

/-! ## The `Tabs.onCreating` listener of `handle-new-tabs.js` -/

/-- The creation metadata `info` the host passes to the
`Tabs.onCreating` listener, projected to the fields the listener
reads. -/
structure CreatingInfo where
  duplicatedInternally : Bool
  maybeOrphan          : Bool
  positionedBySelf     : Bool
  activeTab            : Option Nat
deriving DecidableEq, Repr

/-- The collaborator lookups and configuration the `Tabs.onCreating`
listener consults, together with the resolved results of the
asynchronous move/attach sub-procedures it delegates to
(`handleNewTabFromActiveTab`, `TabsMove.moveTabAfter`,
`Tree.behaveAutoAttachedTab`, all outside this file pair). -/
structure CreatingEnv where
  tabId                          : Nat
  windowActiveTab                : Option Nat
  openerTab                      : Option Nat
  hasNextTab                     : Bool
  isNewTabCommandTab             : Bool
  openerIsPinned                 : Bool
  openerSameContainer            : Bool
  autoGroupNewTabsFromPinned     : Bool
  insertNewTabFromPinnedTabAtEnd : Bool
  autoAttach                     : Bool
  newTabCommandMoved             : Bool
  moveTabAfterMoved              : Bool
  autoAttachMoved                : Bool
deriving DecidableEq, Repr

/-- A structural request the `Tabs.onCreating` listener issues to its
collaborators. -/
inductive TabAction where
  | setOriginalOpenerAttribute (openerId : Nat)
  | attachFromActiveTab (baseTab : Nat)
  | moveToEnd
  | autoAttachToOpener (openerId : Nat)
deriving DecidableEq, Repr

/-- The observable outcome of one `Tabs.onCreating` invocation: the
value the listener's returned boolean (or promise) resolves to,
whether the path taken repositioned the tab, the provisional markers
written onto the tab, and the requests issued. -/
structure CreatingResult where
  ret               : Bool
  moved             : Bool
  possibleOpenerTab : Option Nat
  isNewTab          : Bool
  actions           : List TabAction
deriving DecidableEq, Repr

/-- The `Tabs.onCreating` listener of `handle-new-tabs.js`: early
return on internal duplication; with no opener, the
new-tab-command / provisional-marker block guarded by
`!info.maybeOrphan && possibleOpenerTab && !Tabs.getNextTab(tab)`;
with an opener, the pinned-opener handling and the auto-attach
delegation. Every `.then(moved => !moved)` is modelled by negating
the environment-resolved `moved` outcome of the delegated call. -/
def onCreating (env : CreatingEnv) (info : CreatingInfo) : CreatingResult :=
  if info.duplicatedInternally then ⟨true, false, none, false, []⟩
  else
    let possibleOpener :=
      match info.activeTab with
      | some t => some t
      | none => env.windowActiveTab
    match env.openerTab with
    | none =>
      if ¬ info.maybeOrphan ∧ possibleOpener.isSome ∧ ¬ env.hasNextTab then
        if env.isNewTabCommandTab then
          if ¬ info.positionedBySelf then
            ⟨!env.newTabCommandMoved, env.newTabCommandMoved, none, false,
              (match possibleOpener with
               | some p => [TabAction.attachFromActiveTab p]
               | none => [])⟩
          else ⟨false, false, none, false, []⟩
        else
          ⟨true, false,
            (match possibleOpener with
             | some p => if p ≠ env.tabId then some p else none
             | none => none),
            true, []⟩
      else ⟨true, false, none, false, []⟩
    | some opener =>
      let baseActions := [TabAction.setOriginalOpenerAttribute opener]
      if env.openerIsPinned ∧ env.openerSameContainer then
        if env.autoGroupNewTabsFromPinned then
          ⟨false, false, none, false, baseActions⟩
        else if env.insertNewTabFromPinnedTabAtEnd then
          ⟨!env.moveTabAfterMoved, env.moveTabAfterMoved, none, false,
            baseActions ++ [TabAction.moveToEnd]⟩
        else ⟨true, false, none, false, baseActions⟩
      else if ¬ info.maybeOrphan ∧ env.autoAttach then
        ⟨!env.autoAttachMoved, env.autoAttachMoved, none, false,
          baseActions ++ [TabAction.autoAttachToOpener opener]⟩
      else ⟨true, false, none, false, baseActions⟩

/-! ## The `Tabs.onUpdated` listener of `handle-new-tabs.js` -/

/-- A character the site-matcher regexp counts as a word character
(`\w`). -/
def isWordChar (c : Char) : Bool :=
  c.isAlpha || c.isDigit || c == '_'

/-- The host-extraction of the site matcher
`/^\w+:\/\/([^\/]+)(?:$|\/.*$)/` in the `Tabs.onUpdated` listener: a
nonempty run of word characters, the literal `://`, then the captured
nonempty run of non-slash characters. -/
def extractSite (url : String) : Option String :=
  let cs := url.toList
  let scheme := cs.takeWhile isWordChar
  let rest := cs.dropWhile isWordChar
  if scheme.isEmpty then none
  else
    match rest with
    | ':' :: '/' :: '/' :: rest2 =>
      let host := rest2.takeWhile (fun c => c ≠ '/')
      if host.isEmpty then none else some (String.mk host)
    | _ => none

/-- The `changeInfo` the host passes to `Tabs.onUpdated`, projected
to the fields the listener reads. -/
structure UpdatedChangeInfo where
  openerTabId    : Option Nat
  url            : Option String
  statusComplete : Bool
deriving DecidableEq, Repr

/-- The engine-written scratch state of the updated tab: its
provisional markers and its current URL. -/
structure UpdatedTabState where
  isNewTab          : Bool
  possibleOpenerTab : Option Nat
  url               : String
deriving DecidableEq, Repr

/-- Collaborator lookups of the `Tabs.onUpdated` listener:
configuration, the opener lookup of the `openerTabId` sync block, the
current-parent and batch-membership checks, and the resolution of a
recorded possible opener id to its URL when that tab still exists. -/
structure UpdatedEnv where
  syncParentTabAndOpenerTab : Bool
  openerTab                 : Option Nat
  openerSameWindow          : Bool
  openerIsCurrentParent     : Bool
  hasParent                 : Bool
  inOpenedNewTabs           : Bool
  isNewTabCommandTab        : Bool
  lookupOpenerUrl           : Nat → Option String

/-- An attachment request issued by the `Tabs.onUpdated` listener. -/
inductive UpdatedAction where
  | attachToOpener (openerId : Nat)
  | newTabCommandAttach (baseTab : Nat)
  | sameSiteAttach (baseTab : Nat)
deriving DecidableEq, Repr

/-- Whether the change qualifies for the provisional-new-tab check:
`changeInfo.url || changeInfo.status == 'complete'` (an empty URL
string is falsy in the host language). -/
def qualifiesNewTabCheck (change : UpdatedChangeInfo) : Bool :=
  (match change.url with
   | some u => u ≠ ""
   | none => false)
  || change.statusComplete

/-- The provisional-new-tab block of `Tabs.onUpdated`: on a
qualifying change for a tab still marked `isNewTab`, clear both
markers unconditionally, then — when the tab gained no parent in the
interim, the recorded possible opener still exists, and the tab is
not part of an opened-together batch — re-trigger the
new-tab-command path, or attach on a same-site match. -/
def onUpdatedNewTabPart (env : UpdatedEnv) (st : UpdatedTabState)
    (change : UpdatedChangeInfo) : UpdatedTabState × List UpdatedAction :=
  if qualifiesNewTabCheck change ∧ st.isNewTab then
    let st2 : UpdatedTabState := ⟨false, none, st.url⟩
    let acts :=
      match st.possibleOpenerTab with
      | some openerId =>
        match env.lookupOpenerUrl openerId with
        | some openerUrl =>
          if ¬ env.hasParent ∧ ¬ env.inOpenedNewTabs then
            if env.isNewTabCommandTab then [UpdatedAction.newTabCommandAttach openerId]
            else
              match extractSite openerUrl, extractSite st.url with
              | some s1, some s2 =>
                if s1 = s2 then [UpdatedAction.sameSiteAttach openerId] else []
              | _, _ => []
          else []
        | none => []
      | none => []
    (st2, acts)
  else (st, [])

/-- The `Tabs.onUpdated` listener of `handle-new-tabs.js`: the
`openerTabId` sync block followed by the provisional-new-tab
block. -/
def onUpdated (env : UpdatedEnv) (st : UpdatedTabState)
    (change : UpdatedChangeInfo) : UpdatedTabState × List UpdatedAction :=
  let syncActs :=
    if change.openerTabId.isSome ∧ env.syncParentTabAndOpenerTab then
      match env.openerTab with
      | some parent =>
        if env.openerSameWindow ∧ ¬ env.openerIsCurrentParent then
          [UpdatedAction.attachToOpener parent]
        else []
      | none => []
    else []
  let r := onUpdatedNewTabPart env st change
  (r.1, syncActs ++ r.2)

/-! ## The `Tabs.onAttached` listener of `handle-new-tabs.js` -/

/-- A browser window as an ordered list of tab ids. -/
structure TabWindow where
  id   : Nat
  tabs : List Nat
deriving DecidableEq, Repr

/-- The tab world the cross-window handler mutates: the per-window
ordered tab lists and the engine's logical parent relation. -/
structure TabWorld where
  windows : List TabWindow
  parents : List (Nat × Nat)
deriving DecidableEq, Repr

/-- The logical parent the engine recorded for a tab. -/
def parentOf (w : TabWorld) (tabId : Nat) : Option Nat :=
  ((w.parents.filter (fun p => p.1 = tabId)).head?).map Prod.snd

/-- Modelled from the spec: `Tree.attachTabTo(movedTab, tab,
{ dontMove: true })` (in `tree.js`, outside this file pair)
re-establishes the moved descendant's `parentId` under the relocated
tab without repositioning it. -/
def setParent (w : TabWorld) (child parent : Nat) : TabWorld :=
  ⟨w.windows, (child, parent) :: w.parents.filter (fun p => p.1 ≠ child)⟩

/-- Insert a tab immediately after the anchor in an ordered tab list;
with no anchor present the tab lands at the end. -/
def insertAfter (anchor tabId : Nat) : List Nat → List Nat
  | [] => [tabId]
  | x :: rest =>
    if x = anchor then x :: tabId :: rest
    else x :: insertAfter anchor tabId rest

/-- Modelled from the spec: the host-level move of one tab into a
destination window right after an anchor tab, as issued by
`Tree.moveTabs` (in `tree.js`, outside this file pair). -/
def doMoveTab (w : TabWorld) (d destWin anchor : Nat) : TabWorld :=
  ⟨w.windows.map (fun win =>
      let tabs1 := win.tabs.erase d
      if win.id = destWin then ⟨win.id, insertAfter anchor d tabs1⟩
      else ⟨win.id, tabs1⟩),
    w.parents⟩

/-- Modelled from the spec: one descendant's move inside
`Tree.moveTabs`; a move that fails transiently (`failsOnce`) leaves
the world unchanged on the first attempt and is then retried once
rather than abandoned, after which it succeeds. -/
def moveDescendant (failsOnce : Bool) (w : TabWorld)
    (d destWin anchor : Nat) : TabWorld :=
  let afterFirst := if failsOnce then w else doMoveTab w d destWin anchor
  if failsOnce then doMoveTab afterFirst d destWin anchor else afterFirst

/-- Modelled from the spec: `Tree.moveTabs(descendants,
{ destinationWindowId, insertAfter })` (in `tree.js`, outside this
file pair) moves every descendant into the destination window
immediately after the moved tab, preserving their relative order;
each successive descendant is inserted after the previous one. -/
def moveTabs (failOnce : Nat → Bool) (w : TabWorld)
    (descendants : List Nat) (destWin insertAfterId : Nat) : TabWorld :=
  (descendants.foldl
    (fun (acc : TabWorld × Nat) d =>
      (moveDescendant (failOnce d) acc.1 d destWin acc.2, d))
    (w, insertAfterId)).1

/-- The `info` passed to the `Tabs.onAttached` listener, projected to
the fields it reads; `applyTreeBehavior` stands for the external
`Tree.shouldApplyTreeBehavior(info)` check (modelled from the spec:
tree behavior not suppressed by configuration or move context). -/
structure AttachedInfo where
  windowId          : Option Nat
  descendants       : List Nat
  applyTreeBehavior : Bool
deriving DecidableEq, Repr

/-- The `Tabs.onAttached` listener of `handle-new-tabs.js`: bail out
unless `info.windowId` is set and tree behavior applies; otherwise
move all descendants into the destination window right after the
attached tab and re-attach each of them under it. -/
def onAttached (failOnce : Nat → Bool) (w : TabWorld)
    (tabId destWindowId : Nat) (info : AttachedInfo) : TabWorld :=
  if info.windowId = none ∨ info.applyTreeBehavior = false then w
  else
    let w1 := moveTabs failOnce w info.descendants destWindowId tabId
    info.descendants.foldl (fun acc d => setParent acc d tabId) w1

/-! ## Theorems about the `handle-new-tabs.js` listeners -/

/-- C4: When a tab with two descendants is attached to a different
window and tree behavior applies, both descendants are moved into the
destination window immediately after the moved tab preserving their
relative order, and each moved descendant's logical parent is
re-established under the relocated tab — for every transient-failure
pattern, including the one where a descendant's move must be retried
once. -/
theorem onAttached_moves_descendants_and_reattaches
    (failOnce : Nat → Bool) :
    (onAttached failOnce ⟨[⟨1, [11, 12]⟩, ⟨2, [20, 10]⟩], []⟩ 10 2
        ⟨some 1, [11, 12], true⟩).windows
      = [⟨1, []⟩, ⟨2, [20, 10, 11, 12]⟩] ∧
    parentOf (onAttached failOnce ⟨[⟨1, [11, 12]⟩, ⟨2, [20, 10]⟩], []⟩ 10 2
        ⟨some 1, [11, 12], true⟩) 11 = some 10 ∧
    parentOf (onAttached failOnce ⟨[⟨1, [11, 12]⟩, ⟨2, [20, 10]⟩], []⟩ 10 2
        ⟨some 1, [11, 12], true⟩) 12 = some 10 := by
  unfold onAttached moveTabs
  dsimp only [List.foldl]
  cases h1 : failOnce 11 <;> cases h2 : failOnce 12 <;> decide

/-- C5: For every tab marked provisional at creation, deferred
resolution attaches it at most once: the provisional markers
(`isNewTab`, `possibleOpenerTab`) are cleared unconditionally the
first time a qualifying navigation-completion event is evaluated, so
a second navigation-completion event for the same tab issues no
attachment and leaves the tab state unchanged, even when the opener
host equals the new tab's host. -/
theorem onUpdated_attaches_at_most_once
    (env1 env2 : UpdatedEnv) (st : UpdatedTabState)
    (c1 c2 : UpdatedChangeInfo)
    (hq : qualifiesNewTabCheck c1 = true)
    (h2 : c2.openerTabId = none) :
    (onUpdated env1 st c1).1.isNewTab = false ∧
    (st.isNewTab = true →
      (onUpdated env1 st c1).1.possibleOpenerTab = none) ∧
    (onUpdated env2 (onUpdated env1 st c1).1 c2).2 = [] ∧
    (onUpdated env2 (onUpdated env1 st c1).1 c2).1
      = (onUpdated env1 st c1).1 := by
  have hfst : ∀ (env : UpdatedEnv) (st0 : UpdatedTabState)
      (c : UpdatedChangeInfo),
      (onUpdated env st0 c).1 = (onUpdatedNewTabPart env st0 c).1 :=
    fun _ _ _ => rfl
  have hclear : (onUpdated env1 st c1).1.isNewTab = false := by
    rw [hfst]
    unfold onUpdatedNewTabPart
    by_cases hn : st.isNewTab = true
    · rw [if_pos ⟨hq, hn⟩]
    · rw [if_neg (fun hcon => hn hcon.2)]
      exact Bool.not_eq_true st.isNewTab |>.mp hn
  have hpart : onUpdatedNewTabPart env2 (onUpdated env1 st c1).1 c2
      = ((onUpdated env1 st c1).1, []) := by
    unfold onUpdatedNewTabPart
    rw [if_neg ?hcond]
    case hcond =>
      intro hcon
      rw [hclear] at hcon
      exact Bool.false_ne_true hcon.2
  refine ⟨hclear, ?_, ?_, ?_⟩
  · intro hn
    rw [hfst]
    unfold onUpdatedNewTabPart
    rw [if_pos ⟨hq, hn⟩]
  · show (if c2.openerTabId.isSome ∧ env2.syncParentTabAndOpenerTab then _
        else []) ++ (onUpdatedNewTabPart env2 (onUpdated env1 st c1).1 c2).2
        = []
    rw [hpart, if_neg ?hsync]
    case hsync =>
      intro hcon
      rw [h2] at hcon
      simp at hcon
    rfl
  · rw [hfst, hpart]

/-- Witness for C5: a provisional tab with a recorded same-site
opener, hit by two identical completion events. -/
theorem onUpdated_attaches_at_most_once_witness :
    ((onUpdated
        ⟨false, none, false, false, false, false, false,
         fun _ => some "https://example.com/a"⟩
        ⟨true, some 5, "https://example.com/b"⟩
        ⟨none, none, true⟩).1.isNewTab = false
      ∧ (onUpdated
        ⟨false, none, false, false, false, false, false,
         fun _ => some "https://example.com/a"⟩
        ⟨true, some 5, "https://example.com/b"⟩
        ⟨none, none, true⟩).1.possibleOpenerTab = none)
    ∧ (onUpdated
        ⟨false, none, false, false, false, false, false,
         fun _ => some "https://example.com/a"⟩
        (onUpdated
          ⟨false, none, false, false, false, false, false,
           fun _ => some "https://example.com/a"⟩
          ⟨true, some 5, "https://example.com/b"⟩
          ⟨none, none, true⟩).1
        ⟨none, none, true⟩).2 = [] := by
  have h := onUpdated_attaches_at_most_once
    ⟨false, none, false, false, false, false, false,
     fun _ => some "https://example.com/a"⟩
    ⟨false, none, false, false, false, false, false,
     fun _ => some "https://example.com/a"⟩
    ⟨true, some 5, "https://example.com/b"⟩
    ⟨none, none, true⟩ ⟨none, none, true⟩ rfl rfl
  exact ⟨⟨h.1, h.2.1 rfl⟩, h.2.2.1⟩

/-- C6 counterexample: with no opener, not a new-tab-command tab, and
a plausible active tab (id 5, distinct from the new tab 3) present at
creation, a creation flagged `maybeOrphan` records no
`possibleOpenerTab` — the claim's "iff a plausible active tab
existed" fails in the right-to-left direction. -/
theorem onCreating_possibleOpener_counterexample :
    (⟨3, some 5, none, false, false, false, false, false, false, false,
       false, false, false⟩ : CreatingEnv).openerTab = none ∧
    (⟨3, some 5, none, false, false, false, false, false, false, false,
       false, false, false⟩ : CreatingEnv).isNewTabCommandTab = false ∧
    (⟨3, some 5, none, false, false, false, false, false, false, false,
       false, false, false⟩ : CreatingEnv).windowActiveTab = some 5 ∧
    (onCreating
      ⟨3, some 5, none, false, false, false, false, false, false, false,
       false, false, false⟩
      ⟨false, true, false, none⟩).possibleOpenerTab = none := by
  decide

/-- C6 (amended): For every tab-creation event with no resolvable
opener where the tab is not a new-tab-command tab (and is not an
internal duplication), the handler leaves the tab a root — it returns
true so default placement proceeds, repositions nothing and issues no
request — and records `possibleOpenerTab` if and only if the creation
was not flagged maybe-orphan, no tab was already positioned after the
new tab, and a plausible active tab distinct from the new tab itself
existed at creation time; any recorded id is that active tab's. -/
theorem onCreating_root_and_possibleOpener
    (env : CreatingEnv) (info : CreatingInfo)
    (hop : env.openerTab = none)
    (hntc : env.isNewTabCommandTab = false)
    (hdup : info.duplicatedInternally = false) :
    (onCreating env info).ret = true ∧
    (onCreating env info).moved = false ∧
    (onCreating env info).actions = [] ∧
    ((onCreating env info).possibleOpenerTab.isSome = true ↔
      (info.maybeOrphan = false ∧ env.hasNextTab = false ∧
       ∃ p, (match info.activeTab with
             | some t => some t
             | none => env.windowActiveTab) = some p ∧ p ≠ env.tabId)) ∧
    (∀ p, (onCreating env info).possibleOpenerTab = some p →
      (match info.activeTab with
       | some t => some t
       | none => env.windowActiveTab) = some p) := by
  unfold onCreating
  rw [hdup, hop, hntc]
  simp only [Bool.false_eq_true, if_false]
  try dsimp only
  split_ifs with hG
  · obtain ⟨hmo, hsome, hnext⟩ := hG
    refine ⟨rfl, rfl, rfl, ?_, ?_⟩
    · cases hpo : (match info.activeTab with
          | some t => some t
          | none => env.windowActiveTab) with
      | none => rw [hpo] at hsome; cases hsome
      | some p =>
        dsimp only
        by_cases hp : p = env.tabId
        · rw [if_neg (fun hne => hne hp)]
          constructor
          · intro hfalse; cases hfalse
          · intro ⟨_, _, q, hq, hqne⟩
            injection hq with hqp
            exact absurd (hqp ▸ hp) hqne
        · rw [if_pos hp]
          constructor
          · intro _
            exact ⟨Bool.not_eq_true info.maybeOrphan |>.mp hmo,
              Bool.not_eq_true env.hasNextTab |>.mp hnext, p, rfl, hp⟩
          · intro _; rfl
    · intro p hp
      revert hp
      cases hpo : (match info.activeTab with
          | some t => some t
          | none => env.windowActiveTab) with
      | none => intro hp; cases hp
      | some q =>
        dsimp only
        by_cases hq : q = env.tabId
        · rw [if_neg (fun hne => hne hq)]
          intro hp; cases hp
        · rw [if_pos hq]
          intro hp
          exact hp
  · refine ⟨rfl, rfl, rfl, ?_, ?_⟩
    · constructor
      · intro hfalse; cases hfalse
      · intro ⟨hmo, hnext, p, hpo, hpne⟩
        exfalso
        apply hG
        refine ⟨by rw [hmo]; exact Bool.false_ne_true, ?_, by rw [hnext]; exact Bool.false_ne_true⟩
        rw [hpo]
        rfl
    · intro p hp
      cases hp

/-- Witness for C6's amended theorem at a creation with an active tab
distinct from the new tab and no blocking guard. -/
theorem onCreating_root_and_possibleOpener_witness :
    (onCreating
      ⟨3, some 5, none, false, false, false, false, false, false, false,
       false, false, false⟩
      ⟨false, false, false, none⟩).ret = true ∧
    (onCreating
      ⟨3, some 5, none, false, false, false, false, false, false, false,
       false, false, false⟩
      ⟨false, false, false, none⟩).possibleOpenerTab.isSome = true := by
  have h := onCreating_root_and_possibleOpener
    ⟨3, some 5, none, false, false, false, false, false, false, false,
     false, false, false⟩
    ⟨false, false, false, none⟩ rfl rfl rfl
  exact ⟨h.1, h.2.2.2.1.mpr ⟨rfl, rfl, 5, rfl, by decide⟩⟩

/-- C7 counterexample: a creation delegated to the auto-attach
sub-procedure whose `moved` result is true (the engine repositioned
the tab) makes the listener return false, not true — the claim's
polarity ("true exactly when the engine repositioned the tab") is
inverted with respect to the code. -/
theorem onCreating_ret_counterexample :
    (onCreating
      ⟨3, some 5, some 7, false, false, false, false, false, false, true,
       false, false, true⟩
      ⟨false, false, false, none⟩).moved = true ∧
    (onCreating
      ⟨3, some 5, some 7, false, false, false, false, false, false, true,
       false, false, true⟩
      ⟨false, false, false, none⟩).ret = false := by
  decide

/-- C7 (amended): The boolean (or deferred boolean) the tab-creation
listener resolves to is the negation of the "moved" outcome on every
delegating path: whenever the engine repositioned the tab the
listener returns false (telling the creation primitive that
placement was already handled and default placement must be
suppressed), and whenever it returns true the tab was not
repositioned. -/
theorem onCreating_ret_false_of_moved
    (env : CreatingEnv) (info : CreatingInfo) :
    (onCreating env info).moved = true → (onCreating env info).ret = false := by
  unfold onCreating
  by_cases hdup : info.duplicatedInternally = true
  · rw [if_pos hdup]
    intro hm
    exact absurd hm Bool.false_ne_true
  · rw [if_neg hdup]
    dsimp only
    cases hopen : env.openerTab with
    | none =>
      try dsimp only
      split_ifs <;> (try dsimp only) <;> intro hm <;>
        first
          | exact absurd hm Bool.false_ne_true
          | exact hm.elim
          | (rw [hm]; rfl)
    | some opener =>
      try dsimp only
      split_ifs <;> (try dsimp only) <;> intro hm <;>
        first
          | exact absurd hm Bool.false_ne_true
          | exact hm.elim
          | (rw [hm]; rfl)

/-- Witness for C7's amended theorem: the counterexample input's
flush, where the auto-attach sub-procedure reports a move. -/
theorem onCreating_ret_false_of_moved_witness :
    (onCreating
      ⟨3, some 5, some 7, false, false, false, false, false, false, true,
       false, false, true⟩
      ⟨false, false, false, none⟩).ret = false :=
  onCreating_ret_false_of_moved
    ⟨3, some 5, some 7, false, false, false, false, false, false, true,
     false, false, true⟩
    ⟨false, false, false, none⟩ (by decide)

end TST
